import Mathlib

/-!
Shallow embedding of the healthcare multi-agent application
(`agent.py`, `config.py`, `agents/gov_audit_agent.py`, `audit_server.py`,
`subagents/ent/agent.py`) and proofs about its record store, disclosure
protocol, sentinel routing, session-state adapter, intake validation and
reporting surface.

Python machine-level conventions used throughout the embedding:
* Python strings are Lean `String`; `str.strip()` / `str.lower()` /
  `in` / `startswith` are modelled by the executable `pyStrip` /
  `pyLower` / `pyContains` / `pyStartsWith` below (ASCII semantics,
  which covers every string the program manipulates).
* Python `int(...)` / `float(...)` parsing is modelled by `pyInt` /
  `pyFloat` (optional sign, decimal digits, optional fractional part);
  floats are embedded as rationals since the program only stores and
  re-renders them.
* Exceptions that the source catches locally are modelled by `Option` /
  explicit fallback branches; a function that the source guarantees to
  return normally is embedded as a total Lean function.
* The SQLite-backed store is a list of rows plus the autoincrement
  counter; timestamps are abstract `Nat` ticks rendered by `isoformat`.
-/

namespace HealthcareAI

/-! ### Python string primitives -/

/-- Characters removed by Python `str.strip()` (ASCII whitespace). -/
def isPySpace (c : Char) : Bool :=
  c = ' ' || c = '\t' || c = '\n' || c = '\r' || c = '\x0b' || c = '\x0c'

/-- Python `str.strip()`. -/
def pyStrip (s : String) : String :=
  ⟨((s.data.dropWhile isPySpace).reverse.dropWhile isPySpace).reverse⟩

/-- Python `str.lower()` (ASCII case folding, as used by the program). -/
def pyLower (s : String) : String :=
  ⟨s.data.map Char.toLower⟩

/-- Does `p` occur at the head of `s`? -/
def isPrefixCh : List Char → List Char → Bool
  | [], _ => true
  | _ :: _, [] => false
  | a :: as, b :: bs => a == b && isPrefixCh as bs

/-- Does `pat` occur somewhere inside `hay`? -/
def containsFrom (pat : List Char) : List Char → Bool
  | [] => isPrefixCh pat []
  | c :: rest => isPrefixCh pat (c :: rest) || containsFrom pat rest

/-- Python `pat in hay` for strings. -/
def pyContains (hay pat : String) : Bool :=
  containsFrom pat.data hay.data

/-- Python `s.startswith(pre)`. -/
def pyStartsWith (s pre : String) : Bool :=
  isPrefixCh pre.data s.data

/-- Numeric value of a digit run. -/
def digitsVal (l : List Char) : Nat :=
  l.foldl (fun n c => 10 * n + (c.toNat - '0'.toNat)) 0

/-- Nonempty all-digit run. -/
def allDigits (l : List Char) : Bool :=
  l.all Char.isDigit && !l.isEmpty

/-- Python `int(s)` on an already-stripped string: optional sign followed
by decimal digits; anything else raises `ValueError`, modelled as `none`. -/
def pyInt (s : String) : Option Int :=
  match s.data with
  | '+' :: rest => if allDigits rest then some (digitsVal rest : Int) else none
  | '-' :: rest => if allDigits rest then some (-(digitsVal rest : Int)) else none
  | l => if allDigits l then some (digitsVal l : Int) else none

/-- Magnitude part of Python `float(s)`: digits with an optional single
decimal point (`"70"`, `"70.5"`, `".5"`, `"70."`). -/
def pyFloatMag (l : List Char) : Option ℚ :=
  if l.contains '.' then
    let ip := l.takeWhile (fun c => c ≠ '.')
    let rest := l.dropWhile (fun c => c ≠ '.')
    match rest with
    | '.' :: fp =>
      if fp.contains '.' then none
      else if ip.all Char.isDigit && fp.all Char.isDigit && !(ip.isEmpty && fp.isEmpty) then
        some (mkRat (digitsVal ip * 10 ^ fp.length + digitsVal fp : Int) (10 ^ fp.length))
      else none
    | _ => none
  else
    if allDigits l then some (digitsVal l : ℚ) else none

/-- Python `float(s)` on an already-stripped string (decimal forms used
by the intake dialogue; `none` models `ValueError`). -/
def pyFloat (s : String) : Option ℚ :=
  match s.data with
  | '+' :: rest => pyFloatMag rest
  | '-' :: rest => (pyFloatMag rest).map Neg.neg
  | l => pyFloatMag l

/-! ### Configuration (`config.py`) -/

/-- `config.SECURITY_CODE = os.getenv("SECURITY_CODE", "0864")`: the
configured shared secret as a function of the process environment. -/
def SECURITY_CODE (env : String → Option String) : String :=
  (env "SECURITY_CODE").getD "0864"

/-! ### Record store (`agent.py`: `PatientDetails`, insert/list/display) -/

/-- One row of the `patient_details` table. -/
structure PatientDetails where
  id : Nat
  name : String
  age : Int
  weight : Option ℚ
  created_at : Nat
deriving DecidableEq

/-- The SQLite store: committed rows plus the autoincrement counter. -/
structure DB where
  records : List PatientDetails
  nextId : Nat
deriving DecidableEq

/-- Fresh database (SQLite autoincrement starts at 1). -/
def emptyDB : DB := ⟨[], 1⟩

/-- `insert_patient_record(name, age, weight)`: commits a new row with the
next autoincrement identity and the store-assigned timestamp, returning
the created row (the source's exception branch is storage-layer failure,
outside this embedding of a healthy store). -/
def insert_patient_record (db : DB) (name : String) (age : Int)
    (weight : Option ℚ) (now : Nat) : PatientDetails × DB :=
  let p : PatientDetails := ⟨db.nextId, name, age, weight, now⟩
  (p, ⟨db.records ++ [p], db.nextId + 1⟩)

/-- `get_all_patient_records()`: `session.query(PatientDetails).all()`,
rows in table (insertion) order. -/
def get_all_patient_records (db : DB) : List PatientDetails :=
  db.records

/-- Left-justified column of Python `f"{x:<n}"`. -/
def padTo (s : String) (n : Nat) : String :=
  s ++ ⟨List.replicate (n - s.data.length) ' '⟩

/-- Rendering of a stored float value (stands for Python `str(float)`;
no claim depends on the exact digits). -/
def floatRepr (q : ℚ) : String := toString q

/-- Fifty equals signs. -/
def eq50 : String := ⟨List.replicate 50 '='⟩

/-- Fifty dashes. -/
def dash50 : String := ⟨List.replicate 50 '-'⟩

/-- Message returned by `display_patient_records` on an empty store. -/
def noRecordsMsg : String := "📊 No patient records found in the database."

/-- Table header block of `display_patient_records`. -/
def displayHeader : String :=
  "\n" ++ eq50 ++ "\n" ++ "📊 Patient Records in Database\n" ++ eq50 ++ "\n"
    ++ padTo "ID" 5 ++ " " ++ padTo "Name" 25 ++ " " ++ padTo "Age" 6 ++ " "
    ++ padTo "Weight" 8 ++ "\n" ++ dash50 ++ "\n"

/-- One table row of `display_patient_records`. -/
def displayRow (p : PatientDetails) : String :=
  let weight_disp := match p.weight with
    | some q => floatRepr q
    | none => "-"
  padTo (toString p.id) 5 ++ " " ++ padTo p.name 25 ++ " "
    ++ padTo (toString p.age) 6 ++ " " ++ padTo weight_disp 8 ++ "\n"

/-- `display_patient_records()`: explicit no-records message on an empty
store, otherwise the formatted table. -/
def display_patient_records (db : DB) : String :=
  if (get_all_patient_records db).isEmpty then noRecordsMsg
  else
    displayHeader
      ++ String.join ((get_all_patient_records db).map displayRow)
      ++ eq50 ++ "\n"

/-- The fixed access-denied message of `show_patient_records_secure`. -/
def accessDeniedMsg : String :=
  "❌ Access Denied: Invalid security code. Please provide the correct code to view patient records."

/-- `show_patient_records_secure(security_code)`: renders the records iff
the supplied code equals the configured secret, otherwise returns the
fixed denial message (a normal return value; the function raises nothing). -/
def show_patient_records_secure (sc : String) (security_code : String) (db : DB) : String :=
  if security_code = sc then display_patient_records db
  else accessDeniedMsg

/-! ### Sentinel-forwarding convention (`agent.py`, `subagents/ent/agent.py`) -/

/-- The reserved control token `SENTINEL_FORWARD`. -/
def SENTINEL_FORWARD : String := "__FORWARD_TO_ROOT__"

/-- The security-routing rule text appended by `_ensure_subagent_sentinel`
(Python `sentinel_rule`, built from adjacent string literals and an
f-string around the sentinel). -/
def sentinel_rule : String :=
  "\n\nSecurity routing rule: If the user requests 'show records', 'display records', or 'view records', do NOT attempt to access or describe records. Instead respond exactly with the single token: '"
    ++ SENTINEL_FORWARD ++ "' (no extra text, no explanation)."

/-- `subagents/ent/prompt.py`: the ENT persona prompt, verbatim. -/
def ENT_INSTR : String :=
  "\n- You role is to act as an ENT (Ear, Nose, and Throat) medical assistant.\n- You will provide information on common ENT conditions, symptoms, and treatments.  \n- You will assist patients in understanding when to seek medical care for ENT issues.\n- You will offer advice on preventive measures for maintaining ear, nose, and throat health.\n- You will answer patient questions with empathy and clarity, ensuring they feel supported.\n- You will not provide diagnoses or prescribe treatments; always recommend consulting a healthcare professional for medical advice.\n- You will maintain patient confidentiality and adhere to ethical guidelines in all interactions.\n- You will ensure that all information provided is accurate and up-to-date based on current medical standards.\n- You will always encourage patients to follow up with their primary care physician or a specialist for any serious concerns.\n- You will provide resources for further reading on ENT health when appropriate.\n- You will maintain a compassionate and patient-centered approach in all communications.\n- Always ensure that your responses are tailored to the specific needs and concerns of patient\n"

/-- `subagents/ent/agent.py`: `ENT_INSTRUCTION`, the fully composed ENT
instruction (already containing the security-routing rule). -/
def ENT_INSTRUCTION : String :=
  "When you respond as the ENT specialist, begin with a short introduction identifying yourself, e.g. 'Hello — I'm the ENT specialist. I will help with ear, nose, and throat issues.'\n\n"
    ++ ENT_INSTR
    ++ "\n\nSecurity routing rule: If the user requests 'show records', 'display records', or 'view records', do NOT attempt to access or describe records. Instead respond exactly with the single token: "
    ++ "'" ++ SENTINEL_FORWARD ++ "' (no extra text, no explanation)."
    ++ "\n\nSession access: You have access to a 'fetch_session_state_tool' tool. Call this tool to retrieve session state containing 'patient_name' (the patient), 'interactant_name' (caller), 'patient_age', and 'patient_weight'. When greeting or addressing the caller, use 'interactant_name'. When referencing the patient's record or medical details, use 'patient_name'. Always call fetch_session_state_tool first to obtain this context before proceeding with any medical consultation."

/-- `_ensure_subagent_sentinel(sub_agent)`: appends `sentinel_rule` to the
sub-agent's instruction unless `sentinel_rule.strip()` is already a
substring; `none` models an agent whose `instruction` is Python `None`. -/
def _ensure_subagent_sentinel (instruction : Option String) : Option String :=
  if pyContains (instruction.getD "") (pyStrip sentinel_rule) then instruction
  else some (instruction.getD "" ++ sentinel_rule)

/-! ### A2A transport and coordinator interception
(`agent.py`: `main`, `root_handle_show_records`;
`agents/gov_audit_agent.py`: `communicate_with_root_agent_a2a`,
`run_audit_query`) -/

/-- One event of the runner's event stream, as far as
`communicate_with_root_agent_a2a` inspects it: `partText = some t` means
`event.content` and `event.content.parts` are truthy and
`parts[0].text or ""` is `t`; `eventStr` is the `str(event)` fallback. -/
structure A2AEvent where
  isFinal : Bool
  partText : Option String
  eventStr : String
deriving DecidableEq

/-- Text extracted from the first final-response event, if any. -/
def firstFinalText : List A2AEvent → Option String
  | [] => none
  | e :: es => if e.isFinal then some (e.partText.getD e.eventStr) else firstFinalText es

/-- Error string for a missing final response. -/
def noFinalMsg : String := "❌ A2A Communication Error: no final response received"

/-- `communicate_with_root_agent_a2a`: returns the first final event's
text verbatim (empty or absent final text yields the error string; the
raised-exception branches around `run_async` are transport failures
outside this embedding). -/
def communicate_with_root_agent_a2a (events : List A2AEvent) : String :=
  match firstFinalText events with
  | some t => if t = "" then noFinalMsg else t
  | none => noFinalMsg

/-- `main(query, runner)` final-event handling composed with
`root_handle_show_records`: the human-terminal path. `final_text` is the
final event's text, `typed_code` the keystroke answer to the challenge
prompt. Output is what the coordinator prints for this turn. -/
def main_handle_final (final_text : String) (typed_code : String)
    (sc : String) (db : DB) : String :=
  let final := pyStrip final_text
  if final = SENTINEL_FORWARD then show_patient_records_secure sc (pyStrip typed_code) db
  else "\n🤖 Agent Response:\n" ++ final

/-- Outcome of `run_audit_query`: the messages the audit agent sent to
the root conversation, in order, and the text returned to its caller. -/
structure AuditOutcome where
  sent : List String
  result : String
deriving DecidableEq

/-- `run_audit_query(root_runner, audit_runner)`: sends `"show records"`;
if the response mentions `"code"` or `"secret"` (case-insensitive
substring), sends the literal string `"0864"` as the next message and
returns that second response, else returns the first response. `root`
maps the sequence of messages sent so far to the event stream of the
last turn. -/
def run_audit_query (root : List String → List A2AEvent) : AuditOutcome :=
  let step1 := communicate_with_root_agent_a2a (root ["show records"])
  if pyContains (pyLower step1) "code" || pyContains (pyLower step1) "secret" then
    { sent := ["show records", "0864"],
      result := communicate_with_root_agent_a2a (root ["show records", "0864"]) }
  else
    { sent := ["show records"], result := step1 }

/-! ### Session-state adapter (`agent.py`: `get_session_state`) -/

/-- Embedded Python value, as far as the session-state adapter inspects
values: dictionaries with string keys against everything else. -/
inductive PVal where
  | none : PVal
  | str : String → PVal
  | int : Int → PVal
  | rat : ℚ → PVal
  | dict : List (String × PVal) → PVal

/-- Python truthiness of an embedded value. -/
def pyTruthy : PVal → Bool
  | .none => false
  | .str s => !s.data.isEmpty
  | .int n => n != 0
  | .rat q => q != 0
  | .dict d => !d.isEmpty

/-- Outcome of probing one candidate method on the backing service:
the attribute is missing or not callable, or the call raises (including
signature-mismatch `TypeError`), or it returns a value. -/
inductive ProbeResult where
  | absent : ProbeResult
  | raises : ProbeResult
  | returns : PVal → ProbeResult

/-- A backing session-service implementation, as observed by
`get_session_state`: the outcome of each of the five candidate probes
for a given session id, and the `_sessions` attribute (`none` when the
attribute is missing; non-dict values fail the `isinstance` guard). -/
structure SessionService where
  probe : Fin 5 → String → ProbeResult
  priv : Option PVal

/-- The candidate-method loop of `get_session_state`: the first probe
returning a dict yields `result.get("state", result)`; every other
outcome falls through to the next candidate. -/
def runProbes (svc : SessionService) (sid : String) : List (Fin 5) → Option PVal
  | [] => none
  | i :: rest =>
    match svc.probe i sid with
    | .returns (.dict d) =>
      some (match List.lookup "state" d with
        | some v => v
        | none => PVal.dict d)
    | _ => runProbes svc sid rest

/-- The five candidates of `get_session_state`, in source order. -/
def getStateCandidates : List (Fin 5) := [0, 1, 2, 3, 4]

/-- The `_sessions` private-storage fallback body of `get_session_state`:
`sess = _sessions.get(session_id) or {}; return sess.get("state", {}) or {}`,
where a non-dict `sess` raises `AttributeError`, caught by the enclosing
`try` and falling through to the empty-mapping default. -/
def sessionsFallback (sessions : List (String × PVal)) (sid : String) : PVal :=
  let sess := match List.lookup sid sessions with
    | some v => if pyTruthy v then v else PVal.dict []
    | none => PVal.dict []
  match sess with
  | PVal.dict d =>
    let st := (List.lookup "state" d).getD (PVal.dict [])
    if pyTruthy st then st else PVal.dict []
  | _ => PVal.dict []

/-- The private-storage fallback guarded by
`hasattr(session_service, "_sessions") and isinstance(…, dict)`. -/
def privFallback (priv : Option PVal) (sid : String) : PVal :=
  match priv with
  | some (PVal.dict sessions) => sessionsFallback sessions sid
  | _ => PVal.dict []

/-- `get_session_state(session_service, session_id)`: candidate-method
probes, then the `_sessions` private-storage fallback, then the
empty-mapping default. Total by construction: every exception the source
can meet is caught. -/
def get_session_state (svc : SessionService) (sid : String) : PVal :=
  match runProbes svc sid getStateCandidates with
  | some v => v
  | none => privFallback svc.priv sid

/-! ### First-turn intake (`agent.py`: `interactive_session` helpers) -/

/-- The patient-name loop of `_get_patient_details`: consumes keystroke
entries until a non-empty stripped name arrives; `none` models an input
stream exhausted while still re-prompting. -/
def _get_name : List String → Option (String × List String)
  | [] => none
  | s :: rest =>
    let n := pyStrip s
    if n = "" then _get_name rest else some (n, rest)

/-- The age loop of `_get_patient_details`: `int(entry.strip())`, re-prompt
on `ValueError` or a value outside `[0, 150]`. -/
def _get_age : List String → Option (Int × List String)
  | [] => none
  | s :: rest =>
    match pyInt (pyStrip s) with
    | none => _get_age rest
    | some a => if a < 0 || a > 150 then _get_age rest else some (a, rest)

/-- The weight loop of `_get_patient_details`: blank entry accepted as the
absent value, `float(entry)` otherwise, re-prompt on `ValueError`. -/
def _get_weight : List String → Option (Option ℚ × List String)
  | [] => none
  | s :: rest =>
    let w := pyStrip s
    if w = "" then some (none, rest)
    else
      match pyFloat w with
      | none => _get_weight rest
      | some x => some (some x, rest)

/-- `_get_patient_details()`: name, then age, then optional weight. -/
def _get_patient_details (inputs : List String) :
    Option ((String × Int × Option ℚ) × List String) :=
  match _get_name inputs with
  | none => none
  | some (n, rest1) =>
    match _get_age rest1 with
    | none => none
    | some (a, rest2) =>
      match _get_weight rest2 with
      | none => none
      | some (w, rest3) => some ((n, a, w), rest3)

/-- `_get_interactant_name()`: same non-empty-name loop as `_get_name`. -/
def _get_interactant_name (inputs : List String) : Option (String × List String) :=
  _get_name inputs

/-- Session-state value stored for the optional weight. -/
def weightVal : Option ℚ → PVal
  | some q => .rat q
  | none => .none

/-- What one completed run of `_handle_first_interaction` produces: the
enriched query forwarded to the agent, the mapping handed to
`set_session_state`, and the record store after the intake insert. -/
structure IntakeResult where
  enriched_query : String
  state : List (String × PVal)
  db : DB

/-- `_handle_first_interaction(current_user_query)`: asks whether the
speaker is the patient, collects the details (plus the caller's name on
the proxy branch), inserts the record and builds the session-state
mapping. The first input answers the `(y/n)` question; `none` models an
exhausted input stream. -/
def _handle_first_interaction (inputs : List String) (query : String)
    (db : DB) (now : Nat) : Option IntakeResult :=
  match inputs with
  | [] => none
  | resp :: rest =>
    if pyStartsWith (pyLower (pyStrip resp)) "y" then
      match _get_patient_details rest with
      | none => none
      | some ((patient_name, patient_age, patient_weight), _) =>
        let enriched := "My name is " ++ patient_name ++ ". I am "
          ++ toString patient_age ++ " years old. " ++ query
        let db1 := (insert_patient_record db patient_name patient_age patient_weight now).2
        some ⟨enriched,
          [("patient_name", .str patient_name),
           ("patient_age", .int patient_age),
           ("patient_weight", weightVal patient_weight),
           ("interactant_name", .str patient_name)],
          db1⟩
    else
      match _get_patient_details rest with
      | none => none
      | some ((patient_name, patient_age, patient_weight), rest2) =>
        match _get_interactant_name rest2 with
        | none => none
        | some (interactant_name, _) =>
          let enriched := "This is " ++ interactant_name ++ " calling on behalf of "
            ++ patient_name ++ " (age " ++ toString patient_age
            ++ (match patient_weight with
                | some q => ", weight " ++ floatRepr q ++ "kg"
                | none => "")
            ++ "). " ++ query
          let db1 := (insert_patient_record db patient_name patient_age patient_weight now).2
          some ⟨enriched,
            [("patient_name", .str patient_name),
             ("patient_age", .int patient_age),
             ("patient_weight", weightVal patient_weight),
             ("interactant_name", .str interactant_name)],
            db1⟩

/-! ### Reporting surface (`audit_server.py`) -/

/-- Abstract rendering of a stored timestamp (`created_at.isoformat()`);
the same stored tick renders to the same string everywhere. -/
def isoformat (t : Nat) : String := toString t

/-- `audit_server.PatientDetails.to_dict`: the JSON record built by the
audit server — `id`, `name`, `age`, `created_at` (the server's model
class declares no `weight` column). -/
def audit_to_dict (p : PatientDetails) : List (String × PVal) :=
  [("id", .int (p.id : Int)), ("name", .str p.name), ("age", .int p.age),
   ("created_at", .str (isoformat p.created_at))]

/-- `agent.PatientDetails.to_dict`: the record store's own dictionary
rendering — `id`, `name`, `age`, `weight`, `created_at`. -/
def PatientDetails.to_dict (p : PatientDetails) : List (String × PVal) :=
  [("id", .int (p.id : Int)), ("name", .str p.name), ("age", .int p.age),
   ("weight", weightVal p.weight), ("created_at", .str (isoformat p.created_at))]

/-- Insert a row into a list sorted by identity. -/
def insertById (p : PatientDetails) : List PatientDetails → List PatientDetails
  | [] => [p]
  | q :: qs => if p.id ≤ q.id then p :: q :: qs else q :: insertById p qs

/-- Sort rows by identity ascending (the server's `ORDER BY id`). -/
def sortById (l : List PatientDetails) : List PatientDetails :=
  l.foldr insertById []

/-- `audit_server.get_patient_records()`:
`session.query(PatientDetails).order_by(PatientDetails.id).all()`. -/
def audit_get_patient_records (db : DB) : List PatientDetails :=
  sortById db.records

/-- The JSON document of `GET /api/records`. -/
structure ApiRecordsDoc where
  status : String
  count : Nat
  records : List (List (String × PVal))
  timestamp : String

/-- `api_records()`: `{status, count, records[], timestamp}` over the
server's own `to_dict` of the ordered rows. -/
def api_records (db : DB) (now : Nat) : ApiRecordsDoc :=
  { status := "success"
    count := (audit_get_patient_records db).length
    records := (audit_get_patient_records db).map audit_to_dict
    timestamp := isoformat now }

/-! ### Store invariant -/

/-- Well-formedness of a reachable store: rows strictly ascending by
identity and every identity below the autoincrement counter. -/
def DB.WF (db : DB) : Prop :=
  db.records.Pairwise (fun p q => p.id < q.id) ∧ ∀ p ∈ db.records, p.id < db.nextId

/-! ### Concrete scenario inputs -/

/-- Process environment that overrides the shared secret to `"1234"`. -/
def env1234 : String → Option String :=
  fun k => if k = "SECURITY_CODE" then some "1234" else none

/-- A final-response event carrying the given text. -/
def finalEvent (t : String) : A2AEvent := ⟨true, some t, ""⟩

/-- A root conversation whose final turn for any message sequence is a
specialist's sentinel token (the specialist was delegated the request
and applied the security routing rule). -/
def sentinelRoot : List String → List A2AEvent :=
  fun _ => [finalEvent SENTINEL_FORWARD]

/-- A root conversation that answers the disclosure trigger with the
challenge question and any follow-up with a rendering note naming the
credential it received. -/
def challengeRoot : List String → List A2AEvent := fun ms =>
  if ms = ["show records"] then
    [finalEvent "What is the secret code to access patient records?"]
  else
    [finalEvent ("[records rendered after credential " ++ ms.getD 1 "" ++ "]")]

/-- Store holding a single John Doe record (age 30, weight 70.5). -/
def dbJohn : DB :=
  (insert_patient_record emptyDB "John Doe" 30 (some (mkRat 141 2)) 5).2

/-- The row `dbJohn` holds. -/
def rJohn : PatientDetails := ⟨1, "John Doe", 30, some (mkRat 141 2), 5⟩

/-- Result of the first-turn intake on the keystrokes
`y / Jane Doe / 29 / 60.5` with query `"hi"` against the fresh store. -/
def janeIntake : IntakeResult :=
  ⟨"My name is Jane Doe. I am 29 years old. hi",
   [("patient_name", .str "Jane Doe"), ("patient_age", .int 29),
    ("patient_weight", weightVal (some (mkRat 121 2))),
    ("interactant_name", .str "Jane Doe")],
   (insert_patient_record emptyDB "Jane Doe" 29 (some (mkRat 121 2)) 3).2⟩

/-- A backing service exposing none of the candidate methods and no
private `_sessions` storage. -/
def bareService : SessionService := ⟨fun _ _ => ProbeResult.absent, none⟩

/-- The backing service holds no state for the session: no candidate
probe produces a dictionary for it and the private `_sessions` storage,
when it is a dictionary, has no entry for the session id. -/
def NoSessionState (svc : SessionService) (sid : String) : Prop :=
  (∀ (i : Fin 5) (d : List (String × PVal)),
      svc.probe i sid ≠ ProbeResult.returns (PVal.dict d)) ∧
  (∀ sessions, svc.priv = some (PVal.dict sessions) →
      List.lookup sid sessions = none)

/-! ### Helper lemmas -/

/-- Strings with different first characters are different. -/
theorem str_ne_of_head {s t : String} (h : s.data.head? ≠ t.data.head?) : s ≠ t :=
  fun e => h (congrArg (fun x : String => x.data.head?) e)

/-- A prefix match anywhere is a containment. -/
theorem containsFrom_of_isPrefixCh (pat l : List Char) (h : isPrefixCh pat l = true) :
    containsFrom pat l = true := by
  cases l with
  | nil => simpa [containsFrom] using h
  | cons c rest => simp [containsFrom, h]

/-- Containment survives prepending. -/
theorem containsFrom_append_left (pat xs ys : List Char)
    (h : containsFrom pat ys = true) : containsFrom pat (xs ++ ys) = true := by
  induction xs with
  | nil => simpa using h
  | cons c rest ih => simp [containsFrom, ih]

set_option maxRecDepth 40000 in
/-- The stripped security-routing rule is contained in the rule itself. -/
theorem rule_contains_stripped_rule :
    containsFrom (pyStrip sentinel_rule).data sentinel_rule.data = true := by decide

set_option maxRecDepth 100000 in
/-- The composed ENT instruction already contains the stripped rule. -/
theorem ent_contains_stripped_rule :
    pyContains ENT_INSTRUCTION (pyStrip sentinel_rule) = true := by decide

/-- Appending the security-routing rule makes its stripped form present. -/
theorem pyContains_append_rule (s : String) :
    pyContains (s ++ sentinel_rule) (pyStrip sentinel_rule) = true := by
  show containsFrom (pyStrip sentinel_rule).data (s.data ++ sentinel_rule.data) = true
  exact containsFrom_append_left _ _ _ rule_contains_stripped_rule

/-- First character of a non-empty record table rendering. -/
theorem display_table_head (x : String) :
    (displayHeader ++ x ++ eq50 ++ "\n").data.head? = some '\n' := rfl

/-- The record rendering never collides with the denial message. -/
theorem display_ne_denied (db : DB) :
    display_patient_records db ≠ accessDeniedMsg := by
  rw [display_patient_records]
  by_cases h : (get_all_patient_records db).isEmpty = true
  · rw [if_pos h]; decide
  · rw [if_neg h]
    exact str_ne_of_head (by rw [display_table_head]; decide)

/-- The secure-disclosure output is never the bare sentinel token. -/
theorem secure_output_ne_sentinel (sc code : String) (db : DB) :
    show_patient_records_secure sc code db ≠ SENTINEL_FORWARD := by
  rw [show_patient_records_secure]
  by_cases h : code = sc
  · rw [if_pos h, display_patient_records]
    by_cases he : (get_all_patient_records db).isEmpty = true
    · rw [if_pos he]; decide
    · rw [if_neg he]
      exact str_ne_of_head (by rw [display_table_head]; decide)
  · rw [if_neg h]; decide

/-- The non-empty-name loop only returns non-empty names. -/
theorem _get_name_ne_empty : ∀ (inputs : List String) (n : String) (rest : List String),
    _get_name inputs = some (n, rest) → n ≠ "" := by
  intro inputs
  induction inputs with
  | nil => intro n rest h; exact absurd h (by simp [_get_name])
  | cons s ss ih =>
    intro n rest h
    rw [_get_name] at h
    by_cases he : pyStrip s = ""
    · rw [if_pos he] at h; exact ih n rest h
    · rw [if_neg he] at h
      obtain ⟨h1, _⟩ := Prod.mk.injEq .. ▸ Option.some.injEq .. ▸ h
      exact h1 ▸ he

/-- The patient-details intake never returns an empty patient name. -/
theorem _get_patient_details_name_ne_empty (inputs : List String) (n : String)
    (a : Int) (w : Option ℚ) (rest : List String)
    (h : _get_patient_details inputs = some ((n, a, w), rest)) : n ≠ "" := by
  rw [_get_patient_details] at h
  split at h
  · cases h
  · rename_i n1 rest1 hn
    split at h
    · cases h
    · rename_i a1 rest2 ha
      split at h
      · cases h
      · rename_i w1 rest3 hw
        simp only [Option.some.injEq, Prod.mk.injEq] at h
        obtain ⟨⟨hn1, -, -⟩, -⟩ := h
        exact hn1 ▸ _get_name_ne_empty inputs n1 rest1 hn

/-- Inserting a row below every element of a list puts it at the head. -/
theorem insertById_all_lt (p : PatientDetails) (l : List PatientDetails)
    (h : ∀ q ∈ l, p.id < q.id) : insertById p l = p :: l := by
  cases l with
  | nil => rfl
  | cons q qs =>
    rw [insertById, if_pos]
    exact Nat.le_of_lt (h q (List.mem_cons_self q qs))

/-- Sorting by identity is the identity on an already-sorted list. -/
theorem sortById_eq_of_sorted : ∀ l : List PatientDetails,
    l.Pairwise (fun p q => p.id < q.id) → sortById l = l := by
  intro l
  induction l with
  | nil => intro _; rfl
  | cons x xs ih =>
    intro h
    rw [List.pairwise_cons] at h
    show insertById x (sortById xs) = x :: xs
    rw [ih h.2]
    exact insertById_all_lt x xs h.1

/-! ### Claim theorems -/

/-- Claim C1: `show_patient_records_secure` grants access and returns the
rendered records iff the supplied credential equals the configured shared
secret under case-sensitive string equality; every other credential gets
the fixed access-denied message as a normal return value (the embedded
function is total, so no exception escapes), and that message never
coincides with a records rendering. -/
theorem secure_disclosure_iff_exact_secret (env : String → Option String)
    (code : String) (db : DB) :
    (code = SECURITY_CODE env →
      show_patient_records_secure (SECURITY_CODE env) code db
        = display_patient_records db) ∧
    (code ≠ SECURITY_CODE env →
      show_patient_records_secure (SECURITY_CODE env) code db = accessDeniedMsg) ∧
    display_patient_records db ≠ accessDeniedMsg := by
  refine ⟨fun h => ?_, fun h => ?_, display_ne_denied db⟩
  · rw [show_patient_records_secure, if_pos h]
  · rw [show_patient_records_secure, if_neg h]

/-- Witness for C1 at the default environment: the exact secret is
accepted, a wrong code gets the denial message. -/
theorem secure_disclosure_iff_exact_secret_witness :
    show_patient_records_secure (SECURITY_CODE (fun _ => none)) "0864" emptyDB
      = display_patient_records emptyDB ∧
    show_patient_records_secure (SECURITY_CODE (fun _ => none)) "1234" emptyDB
      = accessDeniedMsg :=
  ⟨(secure_disclosure_iff_exact_secret (fun _ => none) "0864" emptyDB).1 (by decide),
   (secure_disclosure_iff_exact_secret (fun _ => none) "1234" emptyDB).2.1 (by decide)⟩

/-- Claim C4: when access is granted (the exact secret is supplied) and
the record store holds zero records, the rendered output is the explicit
no-records message, which is distinct from the access-denied message, so
the two outcomes are distinguishable. -/
theorem granted_empty_store_no_records_msg (sc : String) (db : DB)
    (h : get_all_patient_records db = []) :
    show_patient_records_secure sc sc db = noRecordsMsg ∧
    noRecordsMsg ≠ accessDeniedMsg := by
  refine ⟨?_, by decide⟩
  rw [show_patient_records_secure, if_pos rfl, display_patient_records, if_pos]
  rw [h]; rfl

/-- Witness for C4 on the fresh store. -/
theorem granted_empty_store_no_records_msg_witness :
    show_patient_records_secure "0864" "0864" emptyDB = noRecordsMsg :=
  (granted_empty_store_no_records_msg "0864" emptyDB rfl).1

/-- Claim C5: on every well-formed store state, `get_all_patient_records`
returns the stored rows ordered by identity ascending; an insert
preserves well-formedness, appends a row carrying exactly the supplied
name, age and optional weight, and assigns an identity not previously
present; listing after the insert yields the old rows plus that row. -/
theorem record_store_insert_listAll (db : DB) (name : String) (age : Int)
    (weight : Option ℚ) (now : Nat) (hwf : DB.WF db) :
    ((get_all_patient_records db).map PatientDetails.id).Sorted (· < ·) ∧
    DB.WF (insert_patient_record db name age weight now).2 ∧
    get_all_patient_records (insert_patient_record db name age weight now).2
      = get_all_patient_records db
          ++ [(insert_patient_record db name age weight now).1] ∧
    (insert_patient_record db name age weight now).1.name = name ∧
    (insert_patient_record db name age weight now).1.age = age ∧
    (insert_patient_record db name age weight now).1.weight = weight ∧
    (insert_patient_record db name age weight now).1.id
      ∉ (get_all_patient_records db).map PatientDetails.id := by
  obtain ⟨hsort, hlt⟩ := hwf
  simp only [insert_patient_record, get_all_patient_records, DB.WF]
  refine ⟨List.pairwise_map.mpr hsort, ⟨?_, ?_⟩, trivial, trivial, trivial, trivial, ?_⟩
  · rw [List.pairwise_append]
    refine ⟨hsort, List.pairwise_singleton _ _, ?_⟩
    intro x hx y hy
    rw [List.mem_singleton] at hy
    subst hy
    exact hlt x hx
  · intro p hp
    rcases List.mem_append.mp hp with hold | hnew
    · exact Nat.lt_trans (hlt p hold) (Nat.lt_succ_self _)
    · rw [List.mem_singleton] at hnew
      subst hnew
      exact Nat.lt_succ_self _
  · intro hmem
    rcases List.mem_map.mp hmem with ⟨p, hp, hid⟩
    exact absurd (hid ▸ hlt p hp) (Nat.lt_irrefl _)

/-- Witness for C5: inserting Jane Doe into the fresh store and listing
yields exactly the appended row. -/
theorem record_store_insert_listAll_witness :
    get_all_patient_records
        (insert_patient_record emptyDB "Jane Doe" 29 (some (mkRat 121 2)) 3).2
      = get_all_patient_records emptyDB
          ++ [(insert_patient_record emptyDB "Jane Doe" 29 (some (mkRat 121 2)) 3).1] :=
  (record_store_insert_listAll emptyDB "Jane Doe" 29 (some (mkRat 121 2)) 3
    ⟨List.Pairwise.nil, fun p hp => absurd hp (List.not_mem_nil p)⟩).2.2.1

/-- Claim C7: appending the sentinel security-routing rule is idempotent:
an instruction already containing the stripped rule is left unchanged,
applying the operation twice equals applying it once, and the already
complete `ENT_INSTRUCTION` is a fixed point. -/
theorem ensure_subagent_sentinel_idempotent :
    (∀ i : Option String, pyContains (i.getD "") (pyStrip sentinel_rule) = true →
      _ensure_subagent_sentinel i = i) ∧
    (∀ i : Option String,
      _ensure_subagent_sentinel (_ensure_subagent_sentinel i)
        = _ensure_subagent_sentinel i) ∧
    _ensure_subagent_sentinel (some ENT_INSTRUCTION) = some ENT_INSTRUCTION := by
  have fix : ∀ i : Option String, pyContains (i.getD "") (pyStrip sentinel_rule) = true →
      _ensure_subagent_sentinel i = i := by
    intro i h
    rw [_ensure_subagent_sentinel, if_pos h]
  refine ⟨fix, ?_, ?_⟩
  · intro i
    by_cases h : pyContains (i.getD "") (pyStrip sentinel_rule) = true
    · rw [fix i h]
      exact fix i h
    · have hne : _ensure_subagent_sentinel i = some (i.getD "" ++ sentinel_rule) := by
        rw [_ensure_subagent_sentinel, if_neg h]
      rw [hne]
      exact fix _ (pyContains_append_rule _)
  · exact fix _ ent_contains_stripped_rule

/-- Witness for C7: the rule text itself already contains its stripped
form, so the operation leaves it unchanged. -/
theorem ensure_subagent_sentinel_idempotent_witness :
    _ensure_subagent_sentinel (some sentinel_rule) = some sentinel_rule :=
  ensure_subagent_sentinel_idempotent.1 (some sentinel_rule)
    (rule_contains_stripped_rule)

/-- Claim C2 counterexample: when a specialist's final-turn output on the
A2A path is the sentinel token, `communicate_with_root_agent_a2a` returns
it verbatim, and `run_audit_query` hands it unchanged to the end caller
(it contains the sentinel verbatim), so the coordinator does not
intercept the sentinel on the A2A path. -/
theorem sentinel_reaches_a2a_caller_verbatim :
    communicate_with_root_agent_a2a [finalEvent SENTINEL_FORWARD] = SENTINEL_FORWARD ∧
    (run_audit_query sentinelRoot).result = SENTINEL_FORWARD ∧
    pyContains (run_audit_query sentinelRoot).result SENTINEL_FORWARD = true := by
  refine ⟨by decide, by decide, by decide⟩

/-- Claim C2 (amended): on the human-terminal path the coordinator
intercepts a sentinel final response and substitutes the Disclosure
Challenge Protocol's own output, which is never the bare sentinel; on the
A2A path `communicate_with_root_agent_a2a` returns the final-turn text
verbatim, with no sentinel interception. -/
theorem sentinel_interception_human_path_only :
    (∀ final_text typed_code sc db, pyStrip final_text = SENTINEL_FORWARD →
      main_handle_final final_text typed_code sc db
        = show_patient_records_secure sc (pyStrip typed_code) db) ∧
    (∀ sc code db, show_patient_records_secure sc code db ≠ SENTINEL_FORWARD) ∧
    (∀ events t, firstFinalText events = some t → t ≠ "" →
      communicate_with_root_agent_a2a events = t) := by
  refine ⟨fun final_text typed_code sc db h => ?_, secure_output_ne_sentinel, ?_⟩
  · rw [main_handle_final]
    exact if_pos h
  · intro events t h1 h2
    rw [communicate_with_root_agent_a2a, h1]
    simp only [if_neg h2]

/-- Witness for C2 (amended): a sentinel final event on the human path is
replaced by the challenge protocol's output. -/
theorem sentinel_interception_human_path_only_witness :
    main_handle_final "  __FORWARD_TO_ROOT__ " "0864" "0864" emptyDB
      = show_patient_records_secure "0864" (pyStrip "0864") emptyDB :=
  sentinel_interception_human_path_only.1 "  __FORWARD_TO_ROOT__ " "0864" "0864"
    emptyDB (by decide)

/-- Claim C3 counterexample: with the shared secret configured to
`"1234"`, the audit orchestration still sends the literal `"0864"` as the
follow-up message — not the configured shared secret — and returns the
root's response to `"0864"`. -/
theorem audit_query_sends_hardcoded_code :
    SECURITY_CODE env1234 = "1234" ∧
    (run_audit_query challengeRoot).sent = ["show records", "0864"] ∧
    ("0864" : String) ≠ SECURITY_CODE env1234 ∧
    (run_audit_query challengeRoot).result
      = communicate_with_root_agent_a2a (challengeRoot ["show records", "0864"]) := by
  refine ⟨by decide, by decide, by decide, by decide⟩

/-- Claim C3 (amended): `run_audit_query` sends the disclosure-trigger
phrase `"show records"`; whenever the first response contains `"code"` or
`"secret"` case-insensitively it sends the fixed literal `"0864"` (the
default shared secret, not the configured one) as the immediately
following message and returns that second response; otherwise it returns
the first response unchanged. -/
theorem run_audit_query_two_step (root : List String → List A2AEvent) :
    ((pyContains (pyLower (communicate_with_root_agent_a2a (root ["show records"]))) "code"
        || pyContains (pyLower (communicate_with_root_agent_a2a (root ["show records"]))) "secret") = true →
      run_audit_query root
        = ⟨["show records", "0864"],
           communicate_with_root_agent_a2a (root ["show records", "0864"])⟩) ∧
    ((pyContains (pyLower (communicate_with_root_agent_a2a (root ["show records"]))) "code"
        || pyContains (pyLower (communicate_with_root_agent_a2a (root ["show records"]))) "secret") = false →
      run_audit_query root
        = ⟨["show records"], communicate_with_root_agent_a2a (root ["show records"])⟩) := by
  constructor
  · intro h
    rw [run_audit_query]
    simp only [h, if_true]
  · intro h
    rw [run_audit_query]
    simp only [h]
    rfl

/-- Witness for C3 (amended): against a root that issues the challenge
question, the orchestration sends `"0864"` and returns the second
response. -/
theorem run_audit_query_two_step_witness :
    run_audit_query challengeRoot
      = ⟨["show records", "0864"],
         communicate_with_root_agent_a2a (challengeRoot ["show records", "0864"])⟩ :=
  (run_audit_query_two_step challengeRoot).1 (by decide)

/-- Claim C6: for every session id and every backing session-service
implementation holding no state for the session, `get_session_state`
falls through its candidate-method probes and the private-storage
fallback and returns the empty mapping; the embedded function is total
(every exception the source can meet is caught), so no exception reaches
the caller. -/
theorem get_session_state_empty_default (svc : SessionService) (sid : String)
    (h : NoSessionState svc sid) : get_session_state svc sid = PVal.dict [] := by
  obtain ⟨hp, hpriv⟩ := h
  have hrun : ∀ l : List (Fin 5), runProbes svc sid l = none := by
    intro l
    induction l with
    | nil => rfl
    | cons i rest ih =>
      rw [runProbes]
      cases hc : svc.probe i sid with
      | absent => exact ih
      | raises => exact ih
      | returns v =>
        cases v with
        | dict d => exact absurd hc (hp i d)
        | none => exact ih
        | str s => exact ih
        | int n => exact ih
        | rat q => exact ih
  rw [get_session_state, hrun]
  show privFallback svc.priv sid = PVal.dict []
  cases hpv : svc.priv with
  | none => rfl
  | some v =>
    cases v with
    | dict sessions =>
      show sessionsFallback sessions sid = PVal.dict []
      rw [sessionsFallback, hpriv sessions hpv]
      rfl
    | none => rfl
    | str s => rfl
    | int n => rfl
    | rat q => rfl

/-- Witness for C6: a service with no probe-able method and no private
storage yields the empty mapping. -/
theorem get_session_state_empty_default_witness :
    get_session_state bareService "session_123" = PVal.dict [] :=
  get_session_state_empty_default bareService "session_123"
    ⟨fun _ _ h => ProbeResult.noConfusion h, fun _ h => Option.noConfusion h⟩

/-- Claim C8: every completed first-turn intake populates all four
session-state keys — `patient_name`, `patient_age`, `patient_weight`,
`interactant_name` — with a non-empty interactant name, and when the
first answer marks the speaker as the patient the stored
`interactant_name` equals the stored `patient_name`. -/
theorem intake_session_state_complete (inputs : List String) (query : String)
    (db : DB) (now : Nat) (res : IntakeResult)
    (h : _handle_first_interaction inputs query db now = some res) :
    ((∃ n, List.lookup "patient_name" res.state = some (PVal.str n)) ∧
     (∃ a, List.lookup "patient_age" res.state = some (PVal.int a)) ∧
     (∃ w, List.lookup "patient_weight" res.state = some (weightVal w)) ∧
     (∃ iname, List.lookup "interactant_name" res.state = some (PVal.str iname) ∧
        iname ≠ "")) ∧
    (∀ resp rest, inputs = resp :: rest →
      pyStartsWith (pyLower (pyStrip resp)) "y" = true →
      List.lookup "interactant_name" res.state
        = List.lookup "patient_name" res.state) := by
  cases inputs with
  | nil => rw [_handle_first_interaction] at h; cases h
  | cons resp rest =>
    rw [_handle_first_interaction] at h
    by_cases hy : pyStartsWith (pyLower (pyStrip resp)) "y" = true
    · rw [if_pos hy] at h
      split at h
      · cases h
      · rename_i n a w rest2 hd
        cases h
        have hn : n ≠ "" := _get_patient_details_name_ne_empty rest n a w rest2 hd
        exact ⟨⟨⟨n, rfl⟩, ⟨a, rfl⟩, ⟨w, rfl⟩, ⟨n, rfl, hn⟩⟩,
          fun _ _ _ _ => rfl⟩
    · rw [if_neg hy] at h
      split at h
      · cases h
      · rename_i n a w rest2 hd
        split at h
        · cases h
        · rename_i iname rest3 hi
          cases h
          have hiname : iname ≠ "" := _get_name_ne_empty rest2 iname rest3 hi
          refine ⟨⟨⟨n, rfl⟩, ⟨a, rfl⟩, ⟨w, rfl⟩, ⟨iname, rfl, hiname⟩⟩, ?_⟩
          intro resp2 rest4 heq hsw
          injection heq with h1 h2
          exact absurd (h1 ▸ hsw) hy

/-- Witness for C8: the Jane Doe self-intake stores
`interactant_name = patient_name = "Jane Doe"` with all four keys set. -/
theorem intake_session_state_complete_witness :
    List.lookup "interactant_name" janeIntake.state
      = List.lookup "patient_name" janeIntake.state :=
  (intake_session_state_complete ["y", "Jane Doe", "29", "60.5"] "hi" emptyDB 3
      janeIntake rfl).2
    "y" ["Jane Doe", "29", "60.5"] rfl (by decide)

/-- Claim C9: the age loop accepts an entry iff it parses as an integer in
the inclusive range `[0, 150]`; a non-numeric entry and an out-of-range
entry are re-prompted (the loop continues on the remaining input, and
never raises, being total); an empty name entry is re-prompted; a blank
weight entry is accepted as the absent value. -/
theorem intake_validation_rules (s : String) (rest : List String) :
    (∀ a : Int, pyInt (pyStrip s) = some a → 0 ≤ a → a ≤ 150 →
      _get_age (s :: rest) = some (a, rest)) ∧
    (pyInt (pyStrip s) = none → _get_age (s :: rest) = _get_age rest) ∧
    (∀ a : Int, pyInt (pyStrip s) = some a → (a < 0 ∨ 150 < a) →
      _get_age (s :: rest) = _get_age rest) ∧
    (pyStrip s = "" → _get_name (s :: rest) = _get_name rest) ∧
    (pyStrip s = "" → _get_weight (s :: rest) = some (none, rest)) := by
  refine ⟨?_, ?_, ?_, ?_, ?_⟩
  · intro a hp h0 h150
    rw [_get_age, hp]
    show (if a < 0 || a > 150 then _get_age rest else some (a, rest)) = some (a, rest)
    rw [if_neg]
    simp only [Bool.or_eq_true, decide_eq_true_eq]
    omega
  · intro hp
    rw [_get_age, hp]
  · intro a hp hr
    rw [_get_age, hp]
    show (if a < 0 || a > 150 then _get_age rest else some (a, rest)) = _get_age rest
    rw [if_pos]
    simp only [Bool.or_eq_true, decide_eq_true_eq]
    omega
  · intro he
    rw [_get_name, he, if_pos rfl]
  · intro he
    rw [_get_weight, he, if_pos rfl]

/-- Witness for C9 at concrete keystrokes: `" 29 "` accepted as 29,
`"abc"` and `"200"` re-prompted, an empty name re-prompted, a blank
weight accepted as absent. -/
theorem intake_validation_rules_witness :
    _get_age [" 29 "] = some (29, []) ∧
    _get_age ["abc", "29"] = _get_age ["29"] ∧
    _get_age ["200", "29"] = _get_age ["29"] ∧
    _get_name ["", "Jane"] = _get_name ["Jane"] ∧
    _get_weight ["", "x"] = some (none, ["x"]) :=
  ⟨(intake_validation_rules " 29 " []).1 29 (by decide) (by decide) (by decide),
   (intake_validation_rules "abc" ["29"]).2.1 (by decide),
   (intake_validation_rules "200" ["29"]).2.2.1 200 (by decide) (Or.inr (by decide)),
   (intake_validation_rules "" ["Jane"]).2.2.2.1 (by decide),
   (intake_validation_rules "" ["x"]).2.2.2.2 (by decide)⟩

/-- Claim C10 counterexample: for the store holding the John Doe record
with weight 70.5, the JSON document's record carries no `weight` key at
all, while the store's own rendering of the same row does, so the
document's records do not equal the store's contents field for field on
`weight`. -/
theorem api_records_drop_weight_counterexample :
    get_all_patient_records dbJohn = [rJohn] ∧
    rJohn.weight = some (mkRat 141 2) ∧
    (api_records dbJohn 7).records = [audit_to_dict rJohn] ∧
    List.lookup "weight" (audit_to_dict rJohn) = none ∧
    List.lookup "weight" (PatientDetails.to_dict rJohn)
      = some (PVal.rat (mkRat 141 2)) ∧
    (api_records dbJohn 7).records ≠ [PatientDetails.to_dict rJohn] :=
  ⟨rfl, by decide, rfl, rfl, rfl,
   fun h => absurd (congrArg (fun l => (l.headD []).length) h) (by decide)⟩

/-- Claim C10 (amended): on every well-formed store state, the JSON
document's `count` equals the number of stored records and its `records`
are the store's rows in the same order, each carrying the same `id`,
`name`, `age` and `created_at` values as the store's record — but no
`weight` key, which the reporting surface does not expose. -/
theorem api_records_matches_store (db : DB) (now : Nat) (hwf : DB.WF db) :
    (api_records db now).count = (get_all_patient_records db).length ∧
    (api_records db now).records
      = (get_all_patient_records db).map audit_to_dict ∧
    ∀ p ∈ get_all_patient_records db,
      List.lookup "id" (audit_to_dict p) = some (PVal.int p.id) ∧
      List.lookup "name" (audit_to_dict p) = some (PVal.str p.name) ∧
      List.lookup "age" (audit_to_dict p) = some (PVal.int p.age) ∧
      List.lookup "created_at" (audit_to_dict p)
        = some (PVal.str (isoformat p.created_at)) ∧
      List.lookup "weight" (audit_to_dict p) = none := by
  have hsorted : audit_get_patient_records db = get_all_patient_records db :=
    sortById_eq_of_sorted db.records hwf.1
  refine ⟨?_, ?_, fun p _ => ⟨rfl, rfl, rfl, rfl, rfl⟩⟩
  · show (audit_get_patient_records db).length = (get_all_patient_records db).length
    rw [hsorted]
  · show (audit_get_patient_records db).map audit_to_dict
      = (get_all_patient_records db).map audit_to_dict
    rw [hsorted]

/-- Witness for C10 (amended) on the John Doe store. -/
theorem api_records_matches_store_witness :
    (api_records dbJohn 7).count = (get_all_patient_records dbJohn).length ∧
    (api_records dbJohn 7).records
      = (get_all_patient_records dbJohn).map audit_to_dict :=
  ⟨(api_records_matches_store dbJohn 7
      ⟨List.pairwise_singleton .., by decide⟩).1,
   (api_records_matches_store dbJohn 7
      ⟨List.pairwise_singleton .., by decide⟩).2.1⟩

end HealthcareAI
